import Mathlib

/-!
Verification of the query-orchestration core of the research-assistant
backend.  Each Python component is shallow-embedded as an executable Lean
definition: pure functions become Lean functions, the Redis-backed session
store becomes an explicit `Store` function, wall-clock reads
(`datetime.now`) become explicit `Nat`/`Int` parameters, and every
external call (database, embedding service, LLM, literature provider)
enters as an explicit outcome parameter of type `Except String α`
(an exception or a returned value).  Python float arithmetic on scores is
modelled with exact rationals.
-/

namespace RA

/-- User query intent types (orchestration/models.py, class Intent). -/
inductive Intent where
  | SEARCH
  | GAP_DETECTION
  | EVIDENCE
  | CITATION
  | CHAT_WITH_PAPER
  | SYNTHESIS
  | FOLLOW_UP
deriving DecidableEq

/-- A conversation message (orchestration/models.py, class Message).
Timestamps are modelled as natural numbers. -/
structure Message where
  role : String
  content : String
  timestamp : Nat
deriving DecidableEq

/-- A research-gap record, modelling the gap dictionaries produced by
intelligent_gap_detector.py.  `type` mirrors g.get("type", ""),
`description` mirrors g.get("description", ""). -/
structure Gap where
  type : String
  title : Option String
  description : String
  importance : String
  confidence : Option ℚ
  evidence : List String
deriving DecidableEq

/-- Conversation state (orchestration/models.py, class
ConversationContext).  search_depth is omitted: no orchestration code
under verification reads it. -/
structure ConversationContext where
  session_id : String
  messages : List Message
  mentioned_papers : List String
  detected_gaps : List Gap
  mentioned_topics : List String
  current_intent : Option Intent
  created_at : Nat
  last_active : Nat
deriving DecidableEq

/-- ConversationContext.add_message: append the message and set
last_active to the current time (the `datetime.now()` read is the
explicit `now` argument). -/
def ConversationContext.add_message (ctx : ConversationContext) (m : Message)
    (now : Nat) : ConversationContext :=
  { ctx with messages := ctx.messages ++ [m], last_active := now }

/-- The Redis session store, keyed by session id (the "conversation:"
key prefix is immaterial and dropped). -/
def Store : Type := String → Option ConversationContext

/-- ConversationManager._save_context: overwrite the whole snapshot under
the key derived from context.session_id. -/
def saveContext (store : Store) (ctx : ConversationContext) : Store :=
  fun k => if k = ctx.session_id then some ctx else store k

namespace ConversationManager

/-- ConversationManager.add_message: load the context, append via
ConversationContext.add_message, re-save.  A missing session leaves the
store unchanged (the Python returns False). -/
def add_message (store : Store) (sid : String) (m : Message) (now : Nat) :
    Store :=
  match store sid with
  | none => store
  | some ctx => saveContext store (ctx.add_message m now)

/-- ConversationManager.track_paper: append the paper id only when it is
not already tracked, then re-save; does not touch last_active. -/
def track_paper (store : Store) (sid pid : String) : Store :=
  match store sid with
  | none => store
  | some ctx =>
    if pid ∈ ctx.mentioned_papers then store
    else saveContext store
      { ctx with mentioned_papers := ctx.mentioned_papers ++ [pid] }

/-- ConversationManager.track_gap: append unconditionally (the source has
no membership check), then re-save; does not touch last_active. -/
def track_gap (store : Store) (sid : String) (g : Gap) : Store :=
  match store sid with
  | none => store
  | some ctx =>
    saveContext store { ctx with detected_gaps := ctx.detected_gaps ++ [g] }

/-- ConversationManager.track_topic: append the topic only when it is not
already tracked, then re-save; does not touch last_active. -/
def track_topic (store : Store) (sid topic : String) : Store :=
  match store sid with
  | none => store
  | some ctx =>
    if topic ∈ ctx.mentioned_topics then store
    else saveContext store
      { ctx with mentioned_topics := ctx.mentioned_topics ++ [topic] }

/-- ConversationManager.set_intent: overwrite current_intent, re-save;
does not touch last_active. -/
def set_intent (store : Store) (sid : String) (intent : Intent) : Store :=
  match store sid with
  | none => store
  | some ctx =>
    saveContext store { ctx with current_intent := some intent }

end ConversationManager

/-- A stored paper, restricted to the fields the orchestration core
reads.  published_date is modelled by its year (the only component the
core ever extracts); citation_count None stays None. -/
structure Paper where
  published_date : Option Nat
  citation_count : Option Nat
  venue : Option String
deriving DecidableEq

/-- Does the first character list start the second one? -/
def startsWithChars : List Char → List Char → Bool
  | [], _ => true
  | _ :: _, [] => false
  | a :: as, b :: bs => a == b && startsWithChars as bs

/-- Does the first character list occur contiguously in the second? -/
def occursInChars (needle : List Char) : List Char → Bool
  | [] => needle.isEmpty
  | b :: bs => startsWithChars needle (b :: bs) || occursInChars needle bs

/-- Substring test: Python `needle in hay`. -/
def containsSub (hay needle : String) : Bool :=
  occursInChars needle.toList hay.toList

/-- Python str.lower(), restricted to the ASCII range the repository's
keyword lexicons and reason strings live in. -/
def lowerString (s : String) : String :=
  String.mk (s.toList.map Char.toLower)

/-! ## Sufficiency checker (orchestration/sufficiency_checker.py) -/

def min_papers_default : Nat := 5

def min_papers_comprehensive : Nat := 20

def recency_threshold_years : Int := 2

def recency_keywords : List String :=
  ["latest", "recent", "new", "current", "2024", "2025",
   "state-of-the-art", "sota"]

def comprehensive_keywords : List String :=
  ["comprehensive", "survey", "review", "systematic review",
   "meta-analysis", "overview"]

/-- SufficiencyChecker._get_newest_year: max over papers with a
publication date, None when there are none. -/
def getNewestYear (papers : List Paper) : Option Nat :=
  match papers.filterMap (fun p => p.published_date) with
  | [] => none
  | y :: ys => some (ys.foldl Nat.max y)

/-- SufficiencyChecker._get_oldest_year. -/
def getOldestYear (papers : List Paper) : Option Nat :=
  match papers.filterMap (fun p => p.published_date) with
  | [] => none
  | y :: ys => some (ys.foldl Nat.min y)

/-- SufficiencyChecker._get_avg_citations: mean over papers whose
citation_count is truthy (present and nonzero); 0.0 when none qualify. -/
def getAvgCitations (papers : List Paper) : ℚ :=
  let citations := papers.filterMap (fun p =>
    match p.citation_count with
    | some c => if c = 0 then none else some c
    | none => none)
  if citations.isEmpty then 0
  else ((citations.foldl Nat.add 0 : Nat) : ℚ) / (citations.length : ℚ)

/-- The metrics snapshot embedded in every verdict. -/
structure SuffMetrics where
  local_count : Nat
  newest_year : Option Nat
  oldest_year : Option Nat
  avg_citations : ℚ
deriving DecidableEq

/-- The dictionary returned by check_sufficiency. -/
structure SuffVerdict where
  sufficient : Bool
  reason : String
  recommended_action : String
  metrics : SuffMetrics
deriving DecidableEq

/-- The rule-2 staleness guard: Python
`newest_year and (current_year - newest_year) > self.recency_threshold_years`
(a year of 0 or None is falsy). -/
def recency_triggered (current_year : Int) (newest : Option Nat) : Bool :=
  match newest with
  | none => false
  | some y => decide (y ≠ 0) && decide (current_year - (y : Int) > recency_threshold_years)

/-- The rule-4 guard body: Python `not newest_year or newest_year < 2024`. -/
def year_rule_triggered (newest : Option Nat) : Bool :=
  match newest with
  | none => true
  | some y => decide (y = 0) || decide (y < 2024)

/-- Render the newest year the way the Python f-string would. -/
def optYearStr : Option Nat → String
  | some y => toString y
  | none => "None"

/-- SufficiencyChecker.check_sufficiency: the ordered first-match rule
chain.  `datetime.now().year` is the explicit current_year argument. -/
def check_sufficiency (current_year : Int) (query : String)
    (local_papers : List Paper) : SuffVerdict :=
  let query_lower := lowerString query
  let paper_count := local_papers.length
  let metrics : SuffMetrics :=
    { local_count := paper_count
      newest_year := getNewestYear local_papers
      oldest_year := getOldestYear local_papers
      avg_citations := getAvgCitations local_papers }
  if paper_count = 0 then
    { sufficient := false
      reason := "No papers found in local database"
      recommended_action := "external_search"
      metrics := metrics }
  else if paper_count < min_papers_default then
    { sufficient := false
      reason := "Only " ++ toString paper_count ++
        " papers found locally, need at least " ++
        toString min_papers_default ++ " for quality analysis"
      recommended_action := "external_search"
      metrics := metrics }
  else if recency_keywords.any (fun k => containsSub query_lower k) &&
      recency_triggered current_year metrics.newest_year then
    { sufficient := false
      reason := "Query requests recent papers but newest local paper is from " ++
        optYearStr metrics.newest_year ++ " (>" ++
        toString recency_threshold_years ++ " years old)"
      recommended_action := "external_search"
      metrics := metrics }
  else if comprehensive_keywords.any (fun k => containsSub query_lower k) &&
      decide (paper_count < min_papers_comprehensive) then
    { sufficient := false
      reason := "Comprehensive review requested but only " ++
        toString paper_count ++ " papers found (need " ++
        toString min_papers_comprehensive ++ "+)"
      recommended_action := "external_search"
      metrics := metrics }
  else if (containsSub query_lower "2024" || containsSub query_lower "2025") &&
      year_rule_triggered metrics.newest_year then
    { sufficient := false
      reason := "Query specifies 2024/2025 but no papers from those years in local database"
      recommended_action := "external_search"
      metrics := metrics }
  else
    { sufficient := true
      reason := "Found " ++ toString paper_count ++
        " relevant papers locally with good coverage"
      recommended_action := "use_local"
      metrics := metrics }

/-! ## Domain classifier (orchestration/domain_classifier.py) -/

def medical_keywords : List String :=
  ["cancer", "disease", "treatment", "clinical", "drug", "patient",
   "therapy", "medical", "medicine", "hospital", "diagnosis", "symptom",
   "health", "pharmaceutical", "vaccine", "virus", "bacteria", "infection",
   "surgery", "gene", "protein", "dna", "rna", "biology", "biomedical"]

def tech_keywords : List String :=
  ["neural", "algorithm", "machine learning", "ai", "artificial intelligence",
   "software", "deep learning", "computer", "programming", "data",
   "network", "system", "model", "training", "optimization", "transformer",
   "cnn", "rnn", "nlp", "computer vision", "reinforcement learning",
   "classification", "regression", "clustering", "prediction"]

def physics_keywords : List String :=
  ["quantum", "particle", "cosmology", "physics", "relativity",
   "gravity", "magnetism", "thermodynamics", "mechanics", "optics",
   "atomic", "nuclear", "photon", "electron", "energy", "field theory"]

/-- Count maximal runs of non-space characters; the flag records whether a
word is currently open. -/
def countWordsAux : Bool → List Char → Nat
  | _, [] => 0
  | _, ' ' :: rest => countWordsAux false rest
  | true, _ :: rest => countWordsAux true rest
  | false, _ :: rest => 1 + countWordsAux true rest

/-- Python `len(k.split())`: the number of whitespace-separated words (the
lexicon keywords use only single spaces). -/
def wordCount (s : String) : Nat := countWordsAux false s.toList

/-- Keyword score of one domain: each keyword found as a substring of the
lowered query contributes its word count (multi-word keywords weigh more),
mirroring `len(keyword.split())`. -/
def keywordScore (query_lower : String) (kws : List String) : Nat :=
  kws.foldl
    (fun acc k =>
      if containsSub query_lower k then acc + wordCount k else acc)
    0

def venue_patterns_medical : List String :=
  ["medical", "clinical", "medicine", "health", "jama", "nejm", "lancet", "bmj"]

def venue_patterns_tech : List String :=
  ["neurips", "icml", "iclr", "cvpr", "acl", "emnlp", "aaai", "ijcai",
   "ieee", "acm"]

def venue_patterns_physics : List String :=
  ["physical review", "physics", "astrophysics", "quantum"]

/-- DomainClassifier._classify_by_venues for one domain: each paper with a
venue matching one of the patterns contributes 1 (the inner `break` caps a
paper at one point per domain). -/
def venueScore (papers : List Paper) (patterns : List String) : Nat :=
  papers.foldl
    (fun acc p =>
      match p.venue with
      | none => acc
      | some v =>
        if v = "" then acc
        else if patterns.any (fun pat => containsSub (lowerString v) pat) then
          acc + 1
        else acc)
    0

/-- Two-argument maximum on scores, mirroring Python max (first argument
wins a tie). -/
def ratMax (a b : ℚ) : ℚ := if a < b then b else a

/-- First key of maximal score, mirroring Python
`max(domain_scores, key=domain_scores.get)` over insertion order. -/
def bestDomain : List (String × ℚ) → String
  | [] => "general"
  | d :: rest => (rest.foldl (fun best x => if x.2 > best.2 then x else best) d).1

/-- The per-domain venue patterns keyed the way self.venue_patterns is. -/
def venuePatternsFor : String → List String
  | "medical" => venue_patterns_medical
  | "tech" => venue_patterns_tech
  | "physics" => venue_patterns_physics
  | _ => []

/-- DomainClassifier.classify_domain: keyword scores per domain; when local
papers are supplied, blend with venue scores at the 70/30 ratio (Python
floats modelled as exact rationals); highest score wins with ties broken by
declaration order; all-zero scores give "general". -/
def classify_domain (query : String) (local_papers : List Paper) : String :=
  let ql := lowerString query
  let kw : List (String × ℚ) :=
    [("medical", (keywordScore ql medical_keywords : ℚ)),
     ("tech", (keywordScore ql tech_keywords : ℚ)),
     ("physics", (keywordScore ql physics_keywords : ℚ))]
  let scores : List (String × ℚ) :=
    if local_papers.isEmpty then kw
    else kw.map (fun ds =>
      (ds.1,
        7 / 10 * ds.2 +
          3 / 10 * (venueScore local_papers (venuePatternsFor ds.1) : ℚ)))
  let max_score : ℚ := scores.foldl (fun m ds => ratMax m ds.2) 0
  if max_score > 0 then bestDomain scores else "general"

/-! ## External provider router (mcp/mcp_router.py) -/

/-- The primary/fallback client names per domain (self.routes); an unknown
domain falls back to the "general" route. -/
def routes : String → String × String
  | "medical" => ("pubmed", "semantic_scholar")
  | "tech" => ("arxiv", "semantic_scholar")
  | "physics" => ("arxiv", "semantic_scholar")
  | _ => ("semantic_scholar", "arxiv")

/-- MCPRouter._search_with_client: a provider call either returns a paper
list or raises; any exception is swallowed and becomes the empty list. -/
def search_with_client {α : Type} (outcome : Except String (List α)) : List α :=
  match outcome with
  | Except.ok papers => papers
  | Except.error _ => []

/-- MCPRouter.search_external: call the primary; when it fails or yields
fewer than 5 results call the fallback; keep both contributions when both
are non-empty (primary first), else whichever is non-empty. -/
def search_external {α : Type} (primary fallback : Except String (List α)) :
    List α :=
  let papers := search_with_client primary
  if papers.isEmpty || decide (papers.length < 5) then
    let fallback_papers := search_with_client fallback
    if !papers.isEmpty && !fallback_papers.isEmpty then papers ++ fallback_papers
    else if !fallback_papers.isEmpty then fallback_papers
    else papers
  else papers

/-! ## Gap detection engine (orchestration/intelligent_gap_detector.py)

The candidate papers (vector similarity search) and the semantic-strategy
output (the JSON-parsed Grok response) are external inputs and enter
detect_gaps as parameters.  The contradiction and missing-connection
strategies are commented out in the source and contribute nothing. -/

/-- IntelligentGapDetector._deduplicate_gaps, with the Python seen-set
made an explicit accumulator: keep a gap when its lowered description is
non-empty and unseen. -/
def dedupAux (seen : List String) : List Gap → List Gap
  | [] => []
  | g :: rest =>
    let d := lowerString g.description
    if d ≠ "" ∧ d ∉ seen then g :: dedupAux (d :: seen) rest
    else dedupAux seen rest

def deduplicate_gaps (gaps : List Gap) : List Gap := dedupAux [] gaps

/-- The strategy-priority table of _rank_gaps
(`priority.get(g.get("type", ""), 0)`). -/
def gap_priority (g : Gap) : Nat :=
  if g.type = "contradiction" then 4
  else if g.type = "semantic" then 3
  else if g.type = "missing_connection" then 2
  else if g.type = "temporal" then 1
  else 0

/-- _rank_gaps: Python list.sort with reverse=True is a stable descending
sort, i.e. the priority-4 entries in original order, then 3, 2, 1, 0. -/
def rank_gaps (gaps : List Gap) : List Gap :=
  (gaps.filter (fun g => gap_priority g == 4)) ++
  (gaps.filter (fun g => gap_priority g == 3)) ++
  (gaps.filter (fun g => gap_priority g == 2)) ++
  (gaps.filter (fun g => gap_priority g == 1)) ++
  (gaps.filter (fun g => gap_priority g == 0))

/-- _detect_temporal_gaps: compare recent (last 2 years) and older (2-5
years back) publication counts; a topic twice as active in the old window
yields one temporal gap.  `datetime.now().year` is the current_year
argument. -/
def detect_temporal_gaps (current_year : Int) (query : String)
    (papers : List Paper) : List Gap :=
  let recent_cutoff := current_year - 2
  let old_cutoff := current_year - 5
  let recent_papers := papers.filter (fun p =>
    match p.published_date with
    | some y => decide (recent_cutoff ≤ (y : Int))
    | none => false)
  let old_papers := papers.filter (fun p =>
    match p.published_date with
    | some y => decide (old_cutoff ≤ (y : Int)) && decide ((y : Int) < recent_cutoff)
    | none => false)
  if old_papers.length > recent_papers.length * 2 then
    [{ type := "temporal"
       title := none
       description := "Research on \x27" ++ query ++ "\x27 has declined recently"
       importance := "Was active " ++ toString old_cutoff ++ "-" ++
         toString recent_cutoff ++ " (" ++ toString old_papers.length ++
         " papers) but only " ++ toString recent_papers.length ++
         " papers in last 2 years"
       confidence := none
       evidence := [] }]
  else []

/-- The generic gap synthesized when no strategy result survives. -/
def fallback_gap (query : String) : Gap :=
  { type := "general"
    title := some "Underexplored Intersection"
    description := "While individual aspects of \x27" ++ query ++
      "\x27 are studied, comprehensive integration of recent findings remains limited."
    importance := "Opportunity for systematic review or meta-analysis"
    confidence := some (3 / 5)
    evidence := [] }

/-- IntelligentGapDetector.detect_gaps: empty candidate set short-circuits
to []; otherwise run the strategies, deduplicate, rank, synthesize the
generic gap if nothing survived, and cap at max_gaps. -/
def detect_gaps (current_year : Int) (query : String) (papers : List Paper)
    (semantic_gaps : List Gap) (max_gaps : Nat) : List Gap :=
  if papers.isEmpty then []
  else
    let gaps := semantic_gaps ++ detect_temporal_gaps current_year query papers
    let unique_gaps := deduplicate_gaps gaps
    let ranked0 := rank_gaps unique_gaps
    let ranked_gaps := if ranked0.isEmpty then [fallback_gap query] else ranked0
    ranked_gaps.take max_gaps

/-! ## Tool router (orchestration/tool_router.py)

Each concurrent branch launched with `asyncio.gather(...,
return_exceptions=True)` either returns its value or raises; a branch
outcome is therefore an `Except String` value. -/

/-- The tagged payload carried by a ToolResult. -/
inductive ToolData where
  | papers : List Paper → ToolData
  | gaps : List Gap → ToolData
  | message : String → ToolData
deriving DecidableEq

/-- orchestration/models.py, class ToolResult.  The Python metadata dict
only ever holds a "count" entry here, modelled as meta_count. -/
structure ToolResult where
  tool_name : String
  success : Bool
  data : Option ToolData
  error : Option String
  execution_time : ℚ
  meta_count : Option Nat
deriving DecidableEq

/-- ToolRouter._handle_search: gather the vector-search branch and the
gap-detection branch.  A failed search branch becomes a failed
vector_search ToolResult; a failed gap branch appends nothing (the source
only logs it). -/
def handle_search (elapsed : ℚ) (searchOut : Except String (List Paper))
    (gapsOut : Except String (List Gap)) : List ToolResult :=
  (match searchOut with
   | Except.error e =>
     [{ tool_name := "vector_search", success := false, data := none,
        error := some e, execution_time := 0, meta_count := none }]
   | Except.ok papers =>
     [{ tool_name := "vector_search", success := true,
        data := some (ToolData.papers papers), error := none,
        execution_time := elapsed, meta_count := some papers.length }]) ++
  (match gapsOut with
   | Except.error _ => []
   | Except.ok gaps =>
     [{ tool_name := "intelligent_gap_detection", success := true,
        data := some (ToolData.gaps gaps), error := none,
        execution_time := elapsed, meta_count := some gaps.length }])

/-- ToolRouter._handle_gap_detection: gather the gap-detection branch and
the evidence-search branch.  A failed gap branch becomes a failed
intelligent_gap_detection ToolResult; a failed search branch appends
nothing (the source only logs it). -/
def handle_gap_detection (elapsed : ℚ) (gapsOut : Except String (List Gap))
    (searchOut : Except String (List Paper)) : List ToolResult :=
  (match gapsOut with
   | Except.error e =>
     [{ tool_name := "intelligent_gap_detection", success := false, data := none,
        error := some e, execution_time := 0, meta_count := none }]
   | Except.ok gaps =>
     [{ tool_name := "intelligent_gap_detection", success := true,
        data := some (ToolData.gaps gaps), error := none,
        execution_time := elapsed, meta_count := some gaps.length }]) ++
  (match searchOut with
   | Except.error _ => []
   | Except.ok papers =>
     [{ tool_name := "vector_search", success := true,
        data := some (ToolData.papers papers), error := none,
        execution_time := elapsed, meta_count := some papers.length }])

/-- ToolRouter._handle_evidence. -/
def handle_evidence (elapsed : ℚ) (evidenceOut : Except String (List Paper)) :
    List ToolResult :=
  match evidenceOut with
  | Except.error e =>
    [{ tool_name := "evidence_finder", success := false, data := none,
       error := some e, execution_time := 0, meta_count := none }]
  | Except.ok evidence =>
    [{ tool_name := "evidence_finder", success := true,
       data := some (ToolData.papers evidence), error := none,
       execution_time := elapsed, meta_count := some evidence.length }]

/-- ToolRouter._handle_citation. -/
def handle_citation (elapsed : ℚ) (ctx : ConversationContext) : List ToolResult :=
  let result :=
    if ctx.mentioned_papers.isEmpty then "No papers mentioned yet"
    else "Citation functionality coming soon"
  [{ tool_name := "citation_generator", success := true,
     data := some (ToolData.message result), error := none,
     execution_time := elapsed, meta_count := none }]

/-- The outcomes of every branch a dispatch turn may launch, fixed across
re-dispatches. -/
structure BranchOutcomes where
  searchOut : Except String (List Paper)
  searchGapsOut : Except String (List Gap)
  gapOut : Except String (List Gap)
  gapSearchOut : Except String (List Paper)
  evidenceOut : Except String (List Paper)
  elapsed : ℚ

/-- ToolRouter.route, with a recursion budget making the self-recursion of
_handle_follow_up explicit: `none` means the budget was exhausted, so
`(∀ fuel, route ... = none)` renders non-termination.  Unlisted intents
(CHAT_WITH_PAPER, SYNTHESIS) return the empty result list. -/
def route (o : BranchOutcomes) :
    Nat → Intent → ConversationContext → Option (List ToolResult)
  | 0, _, _ => none
  | fuel + 1, intent, ctx =>
    match intent with
    | Intent.SEARCH => some (handle_search o.elapsed o.searchOut o.searchGapsOut)
    | Intent.GAP_DETECTION =>
      some (handle_gap_detection o.elapsed o.gapOut o.gapSearchOut)
    | Intent.EVIDENCE => some (handle_evidence o.elapsed o.evidenceOut)
    | Intent.CITATION => some (handle_citation o.elapsed ctx)
    | Intent.FOLLOW_UP =>
      match ctx.current_intent with
      | some prev => route o fuel prev ctx
      | none => some (handle_search o.elapsed o.searchOut o.searchGapsOut)
    | _ => some []

/-! ## Concrete fixtures used by counterexamples and witnesses -/

def ctx0 : ConversationContext :=
  { session_id := "s", messages := [], mentioned_papers := [],
    detected_gaps := [], mentioned_topics := [], current_intent := none,
    created_at := 0, last_active := 3 }

def store0 : Store := fun k => if k = "s" then some ctx0 else none

def gap0 : Gap :=
  { type := "semantic", title := none, description := "Gap one",
    importance := "", confidence := none, evidence := [] }

def gapA : Gap :=
  { type := "semantic", title := none, description := "Duplicate issue",
    importance := "", confidence := none, evidence := [] }

def gapB : Gap :=
  { type := "temporal", title := none, description := "DUPLICATE ISSUE",
    importance := "other", confidence := none, evidence := [] }

def longDescA : String := String.mk (List.replicate 80 'x') ++ "a"

def longDescB : String := String.mk (List.replicate 80 'x') ++ "b"

def gapLongA : Gap :=
  { type := "semantic", title := none, description := longDescA,
    importance := "", confidence := none, evidence := [] }

def gapLongB : Gap :=
  { type := "semantic", title := none, description := longDescB,
    importance := "", confidence := none, evidence := [] }

def outcomes0 : BranchOutcomes :=
  { searchOut := Except.ok [], searchGapsOut := Except.ok [],
    gapOut := Except.ok [], gapSearchOut := Except.ok [],
    evidenceOut := Except.ok [], elapsed := 0 }

def ctxSearch : ConversationContext :=
  { ctx0 with current_intent := some Intent.SEARCH }

end RA

/-- Claim C2: the sufficiency evaluator returns insufficient with action
external_search for query "x" and no papers; insufficient for any query
with exactly 4 papers; and sufficient with action use_local for any query
free of recency and comprehensiveness vocabulary with exactly 5 papers. -/
theorem RA.sufficiency_basic_rules (cy : Int) (q : String)
    (papers : List RA.Paper) :
    ((RA.check_sufficiency cy "x" []).sufficient = false ∧
      (RA.check_sufficiency cy "x" []).recommended_action = "external_search") ∧
    (papers.length = 4 → (RA.check_sufficiency cy q papers).sufficient = false) ∧
    (papers.length = 5 →
      (∀ k ∈ RA.recency_keywords, RA.containsSub (RA.lowerString q) k = false) →
      (∀ k ∈ RA.comprehensive_keywords, RA.containsSub (RA.lowerString q) k = false) →
      (RA.check_sufficiency cy q papers).sufficient = true ∧
        (RA.check_sufficiency cy q papers).recommended_action = "use_local") := by
  refine ⟨⟨?_, ?_⟩, ?_, ?_⟩
  · simp [RA.check_sufficiency]
  · simp [RA.check_sufficiency]
  · intro h4
    simp [RA.check_sufficiency, h4, RA.min_papers_default]
  · intro h5 hrec hcomp
    have hra : RA.recency_keywords.any (fun k => RA.containsSub (RA.lowerString q) k) = false := by
      rw [List.any_eq_false]
      intro k hk
      simp [hrec k hk]
    have hca : RA.comprehensive_keywords.any (fun k => RA.containsSub (RA.lowerString q) k) = false := by
      rw [List.any_eq_false]
      intro k hk
      simp [hcomp k hk]
    have h24 : RA.containsSub (RA.lowerString q) "2024" = false := by
      apply hrec
      simp [RA.recency_keywords]
    have h25 : RA.containsSub (RA.lowerString q) "2025" = false := by
      apply hrec
      simp [RA.recency_keywords]
    simp [RA.check_sufficiency, h5, hra, hca, h24, h25, RA.min_papers_default]

/-- Witness for C2, at current year 2026, query "deep learning" and five
concrete papers. -/
theorem RA.sufficiency_basic_rules_witness :
    (RA.check_sufficiency 2026 "deep learning"
      (List.replicate 5 ⟨some 2020, some 3, none⟩)).sufficient = true := by
  have h := (RA.sufficiency_basic_rules 2026 "deep learning"
    (List.replicate 5 ⟨some 2020, some 3, none⟩)).2.2
    (by decide) (by decide) (by decide)
  exact h.1

/-- Claim C9: the query "cancer" with no local papers classifies as
medical, and the keyword scores computed for tech and for physics are both
zero. -/
theorem RA.cancer_classifies_medical :
    RA.classify_domain "cancer" [] = "medical" ∧
    RA.keywordScore (RA.lowerString "cancer") RA.tech_keywords = 0 ∧
    RA.keywordScore (RA.lowerString "cancer") RA.physics_keywords = 0 := by
  decide

/-- Claim C3: the provider router's primary/fallback policy.  With the two
provider-call outcomes explicit: a raising primary hands back exactly the
fallback contribution; a short primary (fewer than 5 results) merges with a
non-empty fallback, primary results first and length additive; a primary
that produced nothing while the fallback produced results yields the
fallback results alone; two failures yield the empty list rather than a
router-level failure; a primary with at least 5 results is returned as is. -/
theorem RA.mcp_fallback_policy {α : Type} (p f : Except String (List α)) :
    (∀ e, p = Except.error e →
      RA.search_external p f = RA.search_with_client f) ∧
    (∀ lp lf, p = Except.ok lp → f = Except.ok lf →
      lp ≠ [] → lp.length < 5 → lf ≠ [] →
      RA.search_external p f = lp ++ lf ∧
        (RA.search_external p f).length = lp.length + lf.length) ∧
    (∀ lf, RA.search_with_client p = [] → f = Except.ok lf → lf ≠ [] →
      RA.search_external p f = lf) ∧
    (∀ e e2, p = Except.error e → f = Except.error e2 →
      RA.search_external p f = []) ∧
    (∀ lp, p = Except.ok lp → 5 ≤ lp.length →
      RA.search_external p f = lp) := by
  refine ⟨?_, ?_, ?_, ?_, ?_⟩
  · intro e hp
    subst hp
    have hpe : (RA.search_with_client (Except.error e : Except String (List α))) = [] := rfl
    simp only [RA.search_external, hpe]
    rcases hf : RA.search_with_client f with _ | ⟨a, l⟩
    · simp
    · simp
  · intro lp lf hp hf hlp hlen hlf
    subst hp; subst hf
    have hmerge : RA.search_external (Except.ok lp) (Except.ok lf) = lp ++ lf := by
      simp only [RA.search_external, RA.search_with_client]
      rw [if_pos (by simp [hlen]), if_pos (by simp [hlp, hlf])]
    refine ⟨hmerge, ?_⟩
    rw [hmerge, List.length_append]
  · intro lf hp hf hlf
    subst hf
    have hfc : (RA.search_with_client (Except.ok lf) : List α) = lf := rfl
    simp [RA.search_external, hp, hfc, hlf]
  · intro e e2 hp hf
    subst hp; subst hf
    simp [RA.search_external, RA.search_with_client]
  · intro lp hp hlen
    subst hp
    have h1 : (RA.search_with_client (Except.ok lp) : List α) = lp := rfl
    simp only [RA.search_external, h1]
    rw [if_neg]
    simp only [Bool.or_eq_true, decide_eq_true_eq, List.isEmpty_iff]
    push_neg
    refine ⟨?_, by omega⟩
    intro h
    subst h
    simp at hlen

/-- Witness for C3: a one-result primary merged with a one-result
fallback. -/
theorem RA.mcp_fallback_policy_witness :
    RA.search_external (Except.ok ["a"]) (Except.ok ["b"]) = ["a", "b"] :=
  ((RA.mcp_fallback_policy (Except.ok ["a"]) (Except.ok ["b"])).2.1
    ["a"] ["b"] rfl rfl (by decide) (by decide) (by decide)).1

/-- Claim C7 counterexample: the query "2024" names a very recent year,
the five local papers all pass the count floor and the recency rule, none
of them is from 2024 — yet check_sufficiency (at current year 2026)
returns sufficient, because rule 4 only tests `newest_year < 2024` and the
papers are from 2025. -/
theorem RA.year_rule_ignores_exact_match :
    (RA.check_sufficiency 2026 "2024"
      (List.replicate 5 ⟨some 2025, some 1, none⟩)).sufficient = true ∧
    (RA.check_sufficiency 2026 "2024"
      (List.replicate 5 ⟨some 2025, some 1, none⟩)).recommended_action = "use_local" ∧
    (List.replicate 5 (⟨some 2025, some 1, none⟩ : RA.Paper)).length = 5 ∧
    ((List.replicate 5 (⟨some 2025, some 1, none⟩ : RA.Paper)).all
      (fun p => p.published_date != some 2024)) = true ∧
    RA.containsSub (RA.lowerString "2024") "2024" = true := by
  decide

/-- Claim C7 amended: when the query names 2024 or 2025, the earlier rules
pass, and the newest local year is missing, zero, or before 2024 (the
actual rule-4 guard, rather than "no paper matches the named year"), the
verdict is insufficient with action external_search and the rule-4
reason. -/
theorem RA.year_rule_newest_below_2024 (cy : Int) (q : String)
    (papers : List RA.Paper)
    (h24 : (RA.containsSub (RA.lowerString q) "2024" ||
      RA.containsSub (RA.lowerString q) "2025") = true)
    (hnz : papers.length ≠ 0)
    (hfloor : ¬ papers.length < RA.min_papers_default)
    (hrec : RA.recency_triggered cy (RA.getNewestYear papers) = false)
    (hcomp : (RA.comprehensive_keywords.any
        (fun k => RA.containsSub (RA.lowerString q) k) &&
      decide (papers.length < RA.min_papers_comprehensive)) = false)
    (hyear : RA.year_rule_triggered (RA.getNewestYear papers) = true) :
    (RA.check_sufficiency cy q papers).sufficient = false ∧
    (RA.check_sufficiency cy q papers).recommended_action = "external_search" ∧
    (RA.check_sufficiency cy q papers).reason =
      "Query specifies 2024/2025 but no papers from those years in local database" := by
  refine ⟨?_, ?_, ?_⟩ <;>
    simp [RA.check_sufficiency, hnz, hfloor, hrec, hcomp, h24, hyear]

/-- Witness for the amended C7: query "2024" against five papers from
2023 at current year 2025. -/
theorem RA.year_rule_newest_below_2024_witness :
    (RA.check_sufficiency 2025 "2024"
      (List.replicate 5 ⟨some 2023, some 1, none⟩)).sufficient = false :=
  (RA.year_rule_newest_below_2024 2025 "2024"
    (List.replicate 5 ⟨some 2023, some 1, none⟩)
    (by decide) (by decide) (by decide) (by decide) (by decide) (by decide)).1

/-- dedupAux output is a sublist of its input (order preserved, elements
from the input). -/
theorem RA.dedupAux_sublist (seen : List String) (l : List RA.Gap) :
    (RA.dedupAux seen l).Sublist l := by
  induction l generalizing seen with
  | nil => simp [RA.dedupAux]
  | cons g rest ih =>
    simp only [RA.dedupAux]
    split
    · exact List.Sublist.cons₂ g (ih _)
    · exact List.Sublist.cons g (ih seen)

/-- Every gap kept by dedupAux has a non-empty lowered description that is
not in the seen accumulator. -/
theorem RA.dedupAux_mem_not_seen (l : List RA.Gap) :
    ∀ (seen : List String), ∀ g ∈ RA.dedupAux seen l,
      RA.lowerString g.description ∉ seen ∧
        RA.lowerString g.description ≠ "" := by
  induction l with
  | nil => intro seen g hg; simp [RA.dedupAux] at hg
  | cons h rest ih =>
    intro seen g hg
    simp only [RA.dedupAux] at hg
    split at hg
    case isTrue hcond =>
      rcases List.mem_cons.mp hg with rfl | hg2
      · exact ⟨hcond.2, hcond.1⟩
      · have h2 := ih _ g hg2
        exact ⟨fun hs => h2.1 (List.mem_cons_of_mem _ hs), h2.2⟩
    case isFalse hcond => exact ih seen g hg

/-- dedupAux output carries pairwise-distinct lowered descriptions. -/
theorem RA.dedupAux_pairwise (l : List RA.Gap) :
    ∀ (seen : List String),
      (RA.dedupAux seen l).Pairwise
        (fun a b => RA.lowerString a.description ≠ RA.lowerString b.description) := by
  induction l with
  | nil => intro seen; simp [RA.dedupAux]
  | cons g rest ih =>
    intro seen
    simp only [RA.dedupAux]
    split
    · refine List.Pairwise.cons ?_ (ih _)
      intro b hb heq
      have h2 := RA.dedupAux_mem_not_seen rest _ b hb
      exact h2.1 (heq ▸ List.mem_cons_self _ _)
    · exact ih seen

/-- The first gap bearing a given (non-empty, unseen) lowered description
is kept by dedupAux. -/
theorem RA.dedupAux_first_kept (l1 : List RA.Gap) :
    ∀ (seen : List String) (g : RA.Gap) (l2 : List RA.Gap),
      RA.lowerString g.description ∉ seen →
      RA.lowerString g.description ≠ "" →
      (∀ g0 ∈ l1, RA.lowerString g0.description ≠ RA.lowerString g.description) →
      g ∈ RA.dedupAux seen (l1 ++ g :: l2) := by
  induction l1 with
  | nil =>
    intro seen g l2 hns hne _
    simp only [List.nil_append, RA.dedupAux]
    rw [if_pos ⟨hne, hns⟩]
    exact List.mem_cons_self _ _
  | cons h t ih =>
    intro seen g l2 hns hne hfirst
    simp only [List.cons_append, RA.dedupAux]
    split
    · refine List.mem_cons_of_mem _ (ih _ g l2 ?_ hne ?_)
      · intro hmem
        rcases List.mem_cons.mp hmem with heq | hs
        · exact hfirst h (List.mem_cons_self _ _) heq.symm
        · exact hns hs
      · intro g0 hg0
        exact hfirst g0 (List.mem_cons_of_mem _ hg0)
    · exact ih seen g l2 hns hne (fun g0 hg0 => hfirst g0 (List.mem_cons_of_mem _ hg0))

/-- Claim C4 counterexample: two gaps whose descriptions agree on their
first 80 lowercase characters but differ at position 81 do NOT collapse —
_deduplicate_gaps compares whole descriptions, not an 80-character
prefix. -/
theorem RA.dedup_eighty_prefix_refuted :
    ((RA.lowerString RA.gapLongA.description).toList.take 80 =
      (RA.lowerString RA.gapLongB.description).toList.take 80) ∧
    (RA.deduplicate_gaps [RA.gapLongA, RA.gapLongB]).length = 2 := by
  decide

/-- Claim C4 amended: deduplication compares the full case-insensitive
description (and drops empty-description gaps): the output is a sublist of
the input (first-seen order preserved), its lowered descriptions are
pairwise distinct (any two full-description-equal gaps collapse to one),
and for each non-empty description the first gap carrying it is the one
kept. -/
theorem RA.gap_dedup_full_description (gaps : List RA.Gap) :
    (RA.deduplicate_gaps gaps).Sublist gaps ∧
    (RA.deduplicate_gaps gaps).Pairwise
      (fun a b => RA.lowerString a.description ≠ RA.lowerString b.description) ∧
    (∀ l1 g l2, gaps = l1 ++ g :: l2 →
      RA.lowerString g.description ≠ "" →
      (∀ g0 ∈ l1, RA.lowerString g0.description ≠ RA.lowerString g.description) →
      g ∈ RA.deduplicate_gaps gaps) := by
  refine ⟨RA.dedupAux_sublist [] gaps, RA.dedupAux_pairwise gaps [], ?_⟩
  intro l1 g l2 hsplit hne hfirst
  subst hsplit
  exact RA.dedupAux_first_kept l1 [] g l2 (List.not_mem_nil _) hne hfirst

/-- Witness for the amended C4: gapA and gapB share the lowered
description "duplicate issue"; the first of them is kept. -/
theorem RA.gap_dedup_full_description_witness :
    RA.gapA ∈ RA.deduplicate_gaps [RA.gapA, RA.gapB] :=
  (RA.gap_dedup_full_description [RA.gapA, RA.gapB]).2.2 [] RA.gapA [RA.gapB]
    rfl (by decide) (by intro g0 hg0; simp at hg0)

/-- gap_priority only takes the table values 4, 3, 2, 1, 0. -/
theorem RA.gap_priority_cases (g : RA.Gap) :
    RA.gap_priority g = 4 ∨ RA.gap_priority g = 3 ∨ RA.gap_priority g = 2 ∨
      RA.gap_priority g = 1 ∨ RA.gap_priority g = 0 := by
  unfold RA.gap_priority
  split_ifs <;> simp

/-- Ranking never loses or invents gaps: the ranked list is empty exactly
when the input is. -/
theorem RA.rank_gaps_nil_iff (gaps : List RA.Gap) :
    RA.rank_gaps gaps = [] ↔ gaps = [] := by
  constructor
  · intro h
    by_contra hne
    obtain ⟨g, rest, rfl⟩ := List.exists_cons_of_ne_nil hne
    have hg : g ∈ RA.rank_gaps (g :: rest) := by
      unfold RA.rank_gaps
      simp only [List.mem_append, List.mem_filter]
      rcases RA.gap_priority_cases g with hp | hp | hp | hp | hp <;>
        simp [hp, List.mem_cons_self]
    rw [h] at hg
    exact List.not_mem_nil g hg
  · intro h
    subst h
    rfl

/-- Claim C8: detect_gaps on an empty candidate set returns []; with at
least one candidate paper and max_gaps at least 1 it returns a non-empty
list; and when no gap survives detection, deduplication and ranking, the
result is exactly the single synthesized "Underexplored Intersection"
gap. -/
theorem RA.detect_gaps_nonempty (cy : Int) (q : String)
    (papers : List RA.Paper) (sem : List RA.Gap) (mg : Nat) :
    (papers = [] → RA.detect_gaps cy q papers sem mg = []) ∧
    (papers ≠ [] → 1 ≤ mg → RA.detect_gaps cy q papers sem mg ≠ []) ∧
    (papers ≠ [] → 1 ≤ mg →
      RA.rank_gaps (RA.deduplicate_gaps
        (sem ++ RA.detect_temporal_gaps cy q papers)) = [] →
      RA.detect_gaps cy q papers sem mg = [RA.fallback_gap q]) := by
  refine ⟨?_, ?_, ?_⟩
  · intro h
    subst h
    rfl
  · intro hne hmg
    obtain ⟨k, rfl⟩ : ∃ k, mg = k + 1 := ⟨mg - 1, by omega⟩
    have hmain : RA.detect_gaps cy q papers sem (k + 1) =
        (if (RA.rank_gaps (RA.deduplicate_gaps
            (sem ++ RA.detect_temporal_gaps cy q papers))).isEmpty then
          [RA.fallback_gap q]
        else RA.rank_gaps (RA.deduplicate_gaps
          (sem ++ RA.detect_temporal_gaps cy q papers))).take (k + 1) := by
      simp only [RA.detect_gaps]
      rw [if_neg (by simp [hne])]
    rw [hmain]
    by_cases hcase : (RA.rank_gaps (RA.deduplicate_gaps
        (sem ++ RA.detect_temporal_gaps cy q papers))).isEmpty
    · rw [if_pos hcase]
      simp
    · rw [if_neg hcase]
      have : RA.rank_gaps (RA.deduplicate_gaps
          (sem ++ RA.detect_temporal_gaps cy q papers)) ≠ [] := by
        simpa [List.isEmpty_iff] using hcase
      obtain ⟨a, t, hat⟩ := List.exists_cons_of_ne_nil this
      rw [hat]
      simp
  · intro hne hmg hz
    obtain ⟨k, rfl⟩ : ∃ k, mg = k + 1 := ⟨mg - 1, by omega⟩
    simp only [RA.detect_gaps]
    rw [if_neg (by simp [hne])]
    rw [hz]
    simp

/-- Witness for C8: one candidate paper, no strategy output, max_gaps 3:
the synthesized generic gap is returned. -/
theorem RA.detect_gaps_nonempty_witness :
    RA.detect_gaps 2026 "q" [⟨some 2026, none, none⟩] [] 3 =
      [RA.fallback_gap "q"] :=
  (RA.detect_gaps_nonempty 2026 "q" [⟨some 2026, none, none⟩] [] 3).2.2
    (by decide) (by decide) (by decide)

/-- Claim C1 counterexample: in _handle_search a successful search branch
together with a raising gap branch yields a single successful
vector_search ToolResult and no ToolResult at all for the failed gap
branch — the gap-branch exception is not converted into a failed
ToolResult. -/
theorem RA.handle_search_drops_failed_gap_branch :
    RA.handle_search 0 (Except.ok []) (Except.error "boom") =
      [{ tool_name := "vector_search", success := true,
         data := some (RA.ToolData.papers []), error := none,
         execution_time := 0, meta_count := some 0 }] := by
  decide

/-- Claim C1 amended: per dispatch turn the search branch of
_handle_search always yields exactly one vector_search ToolResult (failed
with error set and data absent when it raised), while its gap branch
yields one successful ToolResult on success and nothing on failure;
symmetrically, _handle_gap_detection always yields exactly one
intelligent_gap_detection ToolResult (failed when it raised) and its
search branch yields nothing on failure; each branch's contribution is
independent of its sibling's outcome. -/
theorem RA.dispatch_branch_isolation (e : ℚ)
    (sOut : Except String (List RA.Paper))
    (gOut : Except String (List RA.Gap)) :
    ((RA.handle_search e sOut gOut).countP
      (fun r => r.tool_name == "vector_search") = 1) ∧
    ((RA.handle_search e sOut gOut).countP
        (fun r => r.tool_name == "intelligent_gap_detection") =
      (match gOut with | Except.ok _ => 1 | Except.error _ => 0)) ∧
    (∀ msg, gOut = Except.error msg →
      ∀ r ∈ RA.handle_search e sOut gOut, r.tool_name = "vector_search") ∧
    (∀ msg, sOut = Except.error msg →
      (RA.handle_search e sOut gOut).head? = some
        { tool_name := "vector_search", success := false, data := none,
          error := some msg, execution_time := 0, meta_count := none }) ∧
    (∀ gOut2, (RA.handle_search e sOut gOut).filter
        (fun r => r.tool_name == "vector_search") =
      (RA.handle_search e sOut gOut2).filter
        (fun r => r.tool_name == "vector_search")) ∧
    ((RA.handle_gap_detection e gOut sOut).countP
      (fun r => r.tool_name == "intelligent_gap_detection") = 1) ∧
    ((RA.handle_gap_detection e gOut sOut).countP
        (fun r => r.tool_name == "vector_search") =
      (match sOut with | Except.ok _ => 1 | Except.error _ => 0)) ∧
    (∀ msg, gOut = Except.error msg →
      (RA.handle_gap_detection e gOut sOut).head? = some
        { tool_name := "intelligent_gap_detection", success := false,
          data := none, error := some msg, execution_time := 0,
          meta_count := none }) := by
  refine ⟨?_, ?_, ?_, ?_, ?_, ?_, ?_, ?_⟩
  · rcases sOut with ls | es <;> rcases gOut with lg | eg <;>
      simp [RA.handle_search]
  · rcases sOut with ls | es <;> rcases gOut with lg | eg <;>
      simp [RA.handle_search]
  · intro msg hg r hr
    subst hg
    rcases sOut with ls | es <;>
      simp [RA.handle_search] at hr <;> simp [hr]
  · intro msg hs
    subst hs
    rcases gOut with lg | eg <;> simp [RA.handle_search]
  · intro gOut2
    rcases sOut with ls | es <;> rcases gOut with lg | eg <;>
      rcases gOut2 with lg2 | eg2 <;> simp [RA.handle_search]
  · rcases sOut with ls | es <;> rcases gOut with lg | eg <;>
      simp [RA.handle_gap_detection]
  · rcases sOut with ls | es <;> rcases gOut with lg | eg <;>
      simp [RA.handle_gap_detection]
  · intro msg hg
    subst hg
    rcases sOut with ls | es <;> simp [RA.handle_gap_detection]

/-- Witness for the amended C1: a raising search branch produces the
failed vector_search ToolResult first in the list, and exactly one
vector_search entry exists. -/
theorem RA.dispatch_branch_isolation_witness :
    (RA.handle_search 0 (Except.error "x") (Except.ok [])).head? = some
      { tool_name := "vector_search", success := false, data := none,
        error := some "x", execution_time := 0, meta_count := none } ∧
    (RA.handle_search 0 (Except.error "x") (Except.ok [])).countP
      (fun r => r.tool_name == "vector_search") = 1 :=
  ⟨(RA.dispatch_branch_isolation 0 (Except.error "x") (Except.ok [])).2.2.2.1 "x" rfl,
   (RA.dispatch_branch_isolation 0 (Except.error "x") (Except.ok [])).1⟩

/-- Claim C10: routing FOLLOW_UP terminates for every context whose
recorded intent is not FOLLOW_UP — it re-dispatches once with the recorded
intent, or with the search handler when none is recorded — while a context
whose recorded intent is itself FOLLOW_UP re-enters route unconditionally:
no recursion budget suffices, i.e. the call never terminates. -/
theorem RA.follow_up_termination (o : RA.BranchOutcomes)
    (ctx : RA.ConversationContext) :
    (ctx.current_intent = some RA.Intent.FOLLOW_UP →
      ∀ fuel, RA.route o fuel RA.Intent.FOLLOW_UP ctx = none) ∧
    (ctx.current_intent ≠ some RA.Intent.FOLLOW_UP →
      ∀ fuel, 2 ≤ fuel →
        (RA.route o fuel RA.Intent.FOLLOW_UP ctx).isSome = true) ∧
    (∀ prev, ctx.current_intent = some prev → prev ≠ RA.Intent.FOLLOW_UP →
      ∀ fuel, RA.route o (fuel + 1) RA.Intent.FOLLOW_UP ctx =
        RA.route o fuel prev ctx) ∧
    (ctx.current_intent = none →
      ∀ fuel, RA.route o (fuel + 1) RA.Intent.FOLLOW_UP ctx =
        some (RA.handle_search o.elapsed o.searchOut o.searchGapsOut)) := by
  refine ⟨?_, ?_, ?_, ?_⟩
  · intro h fuel
    induction fuel with
    | zero => rfl
    | succ n ih =>
      simp only [RA.route, h]
      exact ih
  · intro h fuel hfuel
    obtain ⟨k, rfl⟩ : ∃ k, fuel = k + 2 := ⟨fuel - 2, by omega⟩
    cases hci : ctx.current_intent with
    | none => simp [RA.route, hci]
    | some prev =>
      cases prev <;> simp_all [RA.route, hci]
  · intro prev hci hne fuel
    simp only [RA.route, hci]
  · intro hci fuel
    simp only [RA.route, hci]

/-- Witness for C10: a context with recorded intent SEARCH terminates
within budget 2, and the single re-dispatch equation holds concretely. -/
theorem RA.follow_up_termination_witness :
    (RA.route RA.outcomes0 2 RA.Intent.FOLLOW_UP RA.ctxSearch).isSome = true ∧
    RA.route RA.outcomes0 2 RA.Intent.FOLLOW_UP RA.ctxSearch =
      RA.route RA.outcomes0 1 RA.Intent.SEARCH RA.ctxSearch :=
  ⟨(RA.follow_up_termination RA.outcomes0 RA.ctxSearch).2.1 (by decide) 2
      (by decide),
   (RA.follow_up_termination RA.outcomes0 RA.ctxSearch).2.2.1 RA.Intent.SEARCH
      rfl (by decide) 1⟩

/-- Repeating a whole-snapshot save of the same context is a no-op. -/
theorem RA.saveContext_idem (store : RA.Store) (ctx : RA.ConversationContext) :
    RA.saveContext (RA.saveContext store ctx) ctx = RA.saveContext store ctx := by
  funext k
  by_cases hk : k = ctx.session_id <;> simp [RA.saveContext, hk]

/-- Folding add_message over a list of (message, timestamp) pairs appends
the messages in order; under a monotone clock the final last_active is at
least the starting one. -/
theorem RA.addAll_spec (items : List (RA.Message × Nat)) :
    ∀ ctx : RA.ConversationContext,
      List.Chain (fun a b => a ≤ b) ctx.last_active (items.map Prod.snd) →
      ((items.foldl (fun c it => c.add_message it.1 it.2) ctx).messages =
          ctx.messages ++ items.map Prod.fst ∧
        ctx.last_active ≤
          (items.foldl (fun c it => c.add_message it.1 it.2) ctx).last_active) := by
  induction items with
  | nil =>
    intro ctx _
    simp
  | cons it rest ih =>
    intro ctx hchain
    simp only [List.map_cons, List.chain_cons] at hchain
    obtain ⟨hab, hch⟩ := hchain
    simp only [List.foldl_cons, List.map_cons]
    have h2 := ih (ctx.add_message it.1 it.2)
      (by simpa [RA.ConversationContext.add_message] using hch)
    constructor
    · rw [h2.1]
      simp [RA.ConversationContext.add_message]
    · exact le_trans hab
        (by simpa [RA.ConversationContext.add_message] using h2.2)

/-- Claim C5 counterexample: track_paper mutates the session (a new paper
id is recorded) yet leaves last_active exactly as it was — the operation
reads no clock at all, so the mutation does not refresh last_active. -/
theorem RA.track_paper_keeps_last_active :
    ((RA.ConversationManager.track_paper RA.store0 "s" "p1") "s").map
      (fun c => c.mentioned_papers) = some ["p1"] ∧
    ((RA.ConversationManager.track_paper RA.store0 "s" "p1") "s").map
      (fun c => c.last_active) = some 3 ∧
    RA.ctx0.mentioned_papers = [] ∧ RA.ctx0.last_active = 3 := by
  decide

/-- Claim C5 amended: appending a message sets last_active to the current
time (so it never decreases under a monotone clock) and appends the
message; the entity-tracking mutations (track_paper/topic/gap, set_intent)
re-save the session with last_active unchanged — they do not refresh it;
appending N messages under a monotone clock yields the N messages in
append order with last_active at least the pre-append timestamp. -/
theorem RA.last_active_update_policy (store : RA.Store) (sid : String)
    (ctx : RA.ConversationContext) (h : store sid = some ctx)
    (hw : ctx.session_id = sid) :
    (∀ m now, (RA.ConversationManager.add_message store sid m now) sid =
        some (ctx.add_message m now) ∧
      (ctx.add_message m now).messages = ctx.messages ++ [m] ∧
      (ctx.add_message m now).last_active = now) ∧
    (∀ pid, ((RA.ConversationManager.track_paper store sid pid) sid).map
        (fun c => c.last_active) = some ctx.last_active) ∧
    (∀ topic, ((RA.ConversationManager.track_topic store sid topic) sid).map
        (fun c => c.last_active) = some ctx.last_active) ∧
    (∀ g, ((RA.ConversationManager.track_gap store sid g) sid).map
        (fun c => c.last_active) = some ctx.last_active) ∧
    (∀ i, ((RA.ConversationManager.set_intent store sid i) sid).map
        (fun c => c.last_active) = some ctx.last_active) ∧
    (∀ items : List (RA.Message × Nat),
      List.Chain (fun a b => a ≤ b) ctx.last_active (items.map Prod.snd) →
      ((items.foldl (fun c it => c.add_message it.1 it.2) ctx).messages =
          ctx.messages ++ items.map Prod.fst ∧
        ctx.last_active ≤
          (items.foldl (fun c it => c.add_message it.1 it.2) ctx).last_active)) := by
  refine ⟨?_, ?_, ?_, ?_, ?_, fun items hch => RA.addAll_spec items ctx hch⟩
  · intro m now
    refine ⟨?_, by simp [RA.ConversationContext.add_message],
      by simp [RA.ConversationContext.add_message]⟩
    simp [RA.ConversationManager.add_message, h, RA.saveContext,
      RA.ConversationContext.add_message, hw]
  · intro pid
    by_cases hmem : pid ∈ ctx.mentioned_papers
    · simp [RA.ConversationManager.track_paper, h, hmem]
    · simp [RA.ConversationManager.track_paper, h, hmem, RA.saveContext, hw]
  · intro topic
    by_cases hmem : topic ∈ ctx.mentioned_topics
    · simp [RA.ConversationManager.track_topic, h, hmem]
    · simp [RA.ConversationManager.track_topic, h, hmem, RA.saveContext, hw]
  · intro g
    simp [RA.ConversationManager.track_gap, h, RA.saveContext, hw]
  · intro i
    simp [RA.ConversationManager.set_intent, h, RA.saveContext, hw]

/-- Witness for the amended C5: on the concrete one-session store,
appending a message at time 7 refreshes last_active to 7, and
track_paper leaves last_active at its stored value 3. -/
theorem RA.last_active_update_policy_witness :
    ((RA.ConversationManager.add_message RA.store0 "s"
        ⟨"user", "hi", 7⟩ 7) "s" =
      some (RA.ctx0.add_message ⟨"user", "hi", 7⟩ 7) ∧
      (RA.ctx0.add_message ⟨"user", "hi", 7⟩ 7).messages =
        RA.ctx0.messages ++ [⟨"user", "hi", 7⟩] ∧
      (RA.ctx0.add_message ⟨"user", "hi", 7⟩ 7).last_active = 7) ∧
    ((RA.ConversationManager.track_paper RA.store0 "s" "p1") "s").map
      (fun c => c.last_active) = some RA.ctx0.last_active :=
  ⟨(RA.last_active_update_policy RA.store0 "s" RA.ctx0 (by decide) (by decide)).1
      ⟨"user", "hi", 7⟩ 7,
   (RA.last_active_update_policy RA.store0 "s" RA.ctx0 (by decide)
      (by decide)).2.1 "p1"⟩

/-- Claim C6 counterexample: invoking track_gap twice with the same gap
stores it twice — the detected-gaps list after two invocations differs
from the list after one, so track_gap does not have idempotent set-add
semantics. -/
theorem RA.track_gap_not_idempotent :
    ((RA.ConversationManager.track_gap
        (RA.ConversationManager.track_gap RA.store0 "s" RA.gap0) "s" RA.gap0)
        "s").map (fun c => c.detected_gaps) = some [RA.gap0, RA.gap0] ∧
    ((RA.ConversationManager.track_gap RA.store0 "s" RA.gap0) "s").map
      (fun c => c.detected_gaps) = some [RA.gap0] := by
  decide

/-- Claim C6 amended: track_paper and track_topic are idempotent set-adds
(a second identical invocation leaves the store unchanged), while
track_gap appends unconditionally: a repeated gap is stored twice. -/
theorem RA.tracking_idempotence_policy (store : RA.Store)
    (sid pid topic : String) (g : RA.Gap) :
    RA.ConversationManager.track_paper
        (RA.ConversationManager.track_paper store sid pid) sid pid =
      RA.ConversationManager.track_paper store sid pid ∧
    RA.ConversationManager.track_topic
        (RA.ConversationManager.track_topic store sid topic) sid topic =
      RA.ConversationManager.track_topic store sid topic ∧
    (∀ ctx, store sid = some ctx → ctx.session_id = sid →
      ((RA.ConversationManager.track_gap
          (RA.ConversationManager.track_gap store sid g) sid g) sid).map
        (fun c => c.detected_gaps) = some (ctx.detected_gaps ++ [g, g])) := by
  refine ⟨?_, ?_, ?_⟩
  · cases hc : store sid with
    | none =>
      have h1 : RA.ConversationManager.track_paper store sid pid = store := by
        simp only [RA.ConversationManager.track_paper, hc]
      rw [h1, h1]
    | some ctx =>
      by_cases hmem : pid ∈ ctx.mentioned_papers
      · have h1 : RA.ConversationManager.track_paper store sid pid = store := by
          simp only [RA.ConversationManager.track_paper, hc, if_pos hmem]
        rw [h1, h1]
      · have h1 : RA.ConversationManager.track_paper store sid pid =
            RA.saveContext store
              { ctx with mentioned_papers := ctx.mentioned_papers ++ [pid] } := by
          simp only [RA.ConversationManager.track_paper, hc, if_neg hmem]
        rw [h1]
        by_cases hsid : sid = ctx.session_id
        · have h2 : (RA.saveContext store
              { ctx with mentioned_papers := ctx.mentioned_papers ++ [pid] }) sid =
              some { ctx with mentioned_papers := ctx.mentioned_papers ++ [pid] } := by
            simp [RA.saveContext, hsid]
          simp only [RA.ConversationManager.track_paper, h2]
          rw [if_pos (by simp)]
        · have h2 : (RA.saveContext store
              { ctx with mentioned_papers := ctx.mentioned_papers ++ [pid] }) sid =
              some ctx := by
            simp [RA.saveContext, hsid, hc]
          simp only [RA.ConversationManager.track_paper, h2]
          rw [if_neg hmem]
          exact RA.saveContext_idem store _
  · cases hc : store sid with
    | none =>
      have h1 : RA.ConversationManager.track_topic store sid topic = store := by
        simp only [RA.ConversationManager.track_topic, hc]
      rw [h1, h1]
    | some ctx =>
      by_cases hmem : topic ∈ ctx.mentioned_topics
      · have h1 : RA.ConversationManager.track_topic store sid topic = store := by
          simp only [RA.ConversationManager.track_topic, hc, if_pos hmem]
        rw [h1, h1]
      · have h1 : RA.ConversationManager.track_topic store sid topic =
            RA.saveContext store
              { ctx with mentioned_topics := ctx.mentioned_topics ++ [topic] } := by
          simp only [RA.ConversationManager.track_topic, hc, if_neg hmem]
        rw [h1]
        by_cases hsid : sid = ctx.session_id
        · have h2 : (RA.saveContext store
              { ctx with mentioned_topics := ctx.mentioned_topics ++ [topic] }) sid =
              some { ctx with mentioned_topics := ctx.mentioned_topics ++ [topic] } := by
            simp [RA.saveContext, hsid]
          simp only [RA.ConversationManager.track_topic, h2]
          rw [if_pos (by simp)]
        · have h2 : (RA.saveContext store
              { ctx with mentioned_topics := ctx.mentioned_topics ++ [topic] }) sid =
              some ctx := by
            simp [RA.saveContext, hsid, hc]
          simp only [RA.ConversationManager.track_topic, h2]
          rw [if_neg hmem]
          exact RA.saveContext_idem store _
  · intro ctx hc hw
    have h1 : RA.ConversationManager.track_gap store sid g =
        RA.saveContext store
          { ctx with detected_gaps := ctx.detected_gaps ++ [g] } := by
      simp only [RA.ConversationManager.track_gap, hc]
    have h2 : (RA.saveContext store
        { ctx with detected_gaps := ctx.detected_gaps ++ [g] }) sid =
        some { ctx with detected_gaps := ctx.detected_gaps ++ [g] } := by
      simp [RA.saveContext, hw]
    rw [h1]
    simp only [RA.ConversationManager.track_gap, h2]
    simp [RA.saveContext, hw]

/-- Witness for the amended C6: on the concrete one-session store a second
track_paper of "p1" is a no-op, and two track_gap calls store the gap
twice. -/
theorem RA.tracking_idempotence_policy_witness :
    RA.ConversationManager.track_paper
        (RA.ConversationManager.track_paper RA.store0 "s" "p1") "s" "p1" =
      RA.ConversationManager.track_paper RA.store0 "s" "p1" ∧
    ((RA.ConversationManager.track_gap
        (RA.ConversationManager.track_gap RA.store0 "s" RA.gap0) "s" RA.gap0)
        "s").map (fun c => c.detected_gaps) =
      some (RA.ctx0.detected_gaps ++ [RA.gap0, RA.gap0]) :=
  ⟨(RA.tracking_idempotence_policy RA.store0 "s" "p1" "t" RA.gap0).1,
   (RA.tracking_idempotence_policy RA.store0 "s" "p1" "t" RA.gap0).2.2 RA.ctx0
     (by decide) (by decide)⟩
